import Mathlib

/-!
Shallow embedding of the terraform-provider-github core under verification:
the team-membership and user resource reconcilers
(`src/unnamed/part_000`, `src/github/resource_github_user.go`) together
with the identifier codec and the team/user resolver they use.

Go `error` values are modelled by the inductive `GoError`; a remote call's
`(value, resp, err)` triple is modelled by a record of `Option`s exactly as
Go returns possibly-nil pointers; a Go nil-pointer dereference is modelled
by the `nilPanic` outcome.  The remote client and the user-directory cache
are oracles: arbitrary functions supplied as parameters, quantified over in
the theorems.
-/

namespace GithubProvider

/-- Kind of a `strconv` parse failure: Go's `ErrSyntax` / `ErrRange`. -/
inductive ParseIntErrKind where
  | invalidSyn
  | outOfRange
deriving DecidableEq, Repr

/-- Go's `*strconv.NumError`: the offending input plus the failure kind
(the `Func` field is always "ParseInt" here and is omitted). -/
structure NumError where
  num : String
  kind : ParseIntErrKind
deriving DecidableEq, Repr

/-- The Go `error` values that occur in the embedded code. -/
inductive GoError where
  /-- a `*github.ErrorResponse` carrying the HTTP status of the response -/
  | ghErrorResponse (status : Nat) (msg : String)
  /-- any other error value (`errors.New` / `fmt.Errorf`), by its message -/
  | goError (msg : String)
  /-- the provider's `unconvertibleIdErr`, wrapping the parse error -/
  | unconvertibleId (idStr : String) (wrapped : NumError)
  /-- the codec's malformed-composite-identifier error -/
  | malformedId (id : String)
deriving DecidableEq, Repr

/-- Outcome of a reconciler operation: Go returns either a (possibly
mutated) state with a nil error, or a non-nil error; dereferencing a nil
pointer is a runtime panic, modelled explicitly. -/
inductive Outcome (σ : Type) where
  | ok (s : σ)
  | err (e : GoError)
  | nilPanic
deriving DecidableEq, Repr

/-- `strconv.ParseInt(s, 10, 64)`: optional leading sign, then a non-empty
run of decimal digits; out-of-`int64`-range values give `ErrRange`. -/
def go_parseInt64 (s : String) : Except NumError Int :=
  let cs := s.data
  let signAndDigits : Bool × List Char :=
    match cs with
    | '+' :: rest => (false, rest)
    | '-' :: rest => (true, rest)
    | _ => (false, cs)
  let neg := signAndDigits.1
  let digits := signAndDigits.2
  if digits.isEmpty then .error ⟨s, .invalidSyn⟩
  else if digits.all Char.isDigit then
    let n : Nat := digits.foldl (fun acc c => acc * 10 + (c.toNat - 48)) 0
    let v : Int := if neg then -(n : Int) else (n : Int)
    if v < -(2 ^ 63) ∨ 2 ^ 63 - 1 < v then .error ⟨s, .outOfRange⟩
    else .ok v
  else .error ⟨s, .invalidSyn⟩

/-- `strconv.FormatInt(v, 10)` on an `int64` value. -/
def formatInt (v : Int) : String := toString v

/-- Modelled from the spec: the provider's `unconvertibleIdErr` helper is
absent from `src/`; per §7 it produces the `UnconvertibleId` error wrapping
the parse error for the given identifier string. -/
def unconvertibleIdErr (idStr : String) (e : NumError) : GoError :=
  .unconvertibleId idStr e

/-- Modelled from the spec: the Identifier Codec's `encode` (the provider's
`buildTwoPartID`, absent from `src/`, only its test is present): the two
parts joined by the literal separator `:` with no validation (§4.1). -/
def buildTwoPartID (a b : String) : String := a ++ ":" ++ b

/-- Split a character list at the first occurrence of `:`; `none` when the
separator is absent. -/
def splitFirstColon : List Char → Option (List Char × List Char)
  | [] => none
  | c :: rest =>
    if c = ':' then some ([], rest)
    else
      match splitFirstColon rest with
      | some (a, b) => some (c :: a, b)
      | none => none

/-- Modelled from the spec: the Identifier Codec's `decode` (the provider's
`parseTwoPartID`, absent from `src/`): splits on the first occurrence of
the separator and fails with the malformed-identifier error when the
separator is missing (§4.1). -/
def parseTwoPartID (id : String) : Except GoError (String × String) :=
  match splitFirstColon id.data with
  | some (a, b) => .ok (String.mk a, String.mk b)
  | none => .error (.malformedId id)

/-- A `*github.User` as the code uses it: its numeric `ID` and `Login`. -/
structure GhUser where
  id : Int
  login : String
deriving DecidableEq, Repr

/-- A `*github.Response` as the code uses it: `StatusCode` and the value of
the `ETag` response header. -/
structure GhResponse where
  statusCode : Nat
  etag : String
deriving DecidableEq, Repr

/-- A `*github.Membership` as the code uses it: its `Role`. -/
structure Membership where
  role : String
deriving DecidableEq, Repr

/-- A `*github.Team` as the code uses it: its numeric `ID`. -/
structure Team where
  id : Int
deriving DecidableEq, Repr

/-- The `(user, resp, err)` triple returned by `client.Users.Get` /
`client.Users.GetByID`; each component is a possibly-nil pointer. -/
structure UserCallResult where
  user : Option GhUser
  resp : Option GhResponse
  err : Option GoError
deriving DecidableEq, Repr

/-- The `(membership, resp, err)` triple returned by
`client.Teams.GetTeamMembership`. -/
structure TMCallResult where
  membership : Option Membership
  resp : Option GhResponse
  err : Option GoError
deriving DecidableEq, Repr

/-- The `(team, resp, err)` triple returned by
`client.Teams.GetTeamBySlug`. -/
structure TeamCallResult where
  team : Option Team
  resp : Option GhResponse
  err : Option GoError
deriving DecidableEq, Repr

/-- The remote client: an oracle giving the result of each remote call the
embedded operations issue. -/
structure Client where
  usersGet : String → UserCallResult
  usersGetByID : Int → UserCallResult
  getTeamMembership : Int → String → TMCallResult
  getTeamBySlug : String → String → TeamCallResult

/-- The provider's `*Organization` handle: its name, the remote client, the
user-directory cache `UserMap.GetUsername` (an oracle from numeric user id
to the cached/fetched username, `none` on a miss), and the outcome of the
`checkOrganization` guard used by Import. -/
structure Organization where
  name : String
  client : Client
  getUsername : Int → Option String
  checkOrgErr : Option GoError

/-- `getTeamAndUser` (src/unnamed/part_000:192-209): parse both id strings
as int64, then resolve the username through the directory cache. -/
def getTeamAndUser (teamIDString userIDString : String) (org : Organization) :
    Except GoError (Int × Int × String) :=
  match go_parseInt64 teamIDString with
  | .error e => .error (unconvertibleIdErr teamIDString e)
  | .ok teamID =>
    match go_parseInt64 userIDString with
    | .error e => .error (unconvertibleIdErr userIDString e)
    | .ok userID =>
      match org.getUsername userID with
      | none => .error (.goError s!"Unable to get GitHub user {userID}")
      | some username => .ok (teamID, userID, username)

/-- The local attribute state of one `github_team_membership` resource:
the identifier plus the five schema attributes.  An attribute that has
never been set holds the empty string, matching the framework's zero
value for `TypeString`. -/
structure TMState where
  id : String
  team_id : String
  user_id : String
  role : String
  username : String
  etag : String
deriving DecidableEq, Repr

/-- `resourceGithubTeamMembershipRead` (src/unnamed/part_000:85-123).
Note the source inspects `resp.StatusCode` before consulting `err`, and
dereferences `resp` (and, on the fresh-response path, `membership`)
unconditionally. -/
def resourceGithubTeamMembershipRead (org : Organization) (d : TMState) :
    Outcome TMState :=
  match parseTwoPartID d.id with
  | .error e => .err e
  | .ok (teamIDString, userIDString) =>
    match getTeamAndUser teamIDString userIDString org with
    | .error e => .err e
    | .ok (teamID, userID, username) =>
      let r := org.client.getTeamMembership teamID username
      match r.resp with
      | none => .nilPanic
      | some resp =>
        if resp.statusCode = 404 then .ok { d with id := "" }
        else if resp.statusCode ≠ 304 then
          match r.err with
          | some e => .err e
          | none =>
            match r.membership with
            | none => .nilPanic
            | some m =>
              .ok { d with
                    etag := resp.etag
                    team_id := formatInt teamID
                    user_id := formatInt userID
                    username := username
                    role := m.role }
        else .ok d

/-- `resourceGithubTeamMembershipImport` (src/unnamed/part_000:145-190):
for each composite-id part, attempt an int64 parse, falling back to a
remote slug (team) / login (user) lookup; reassemble a numeric-only id. -/
def resourceGithubTeamMembershipImport (org : Organization) (d : TMState) :
    Outcome (List TMState) :=
  match org.checkOrgErr with
  | some e => .err e
  | none =>
    match parseTwoPartID d.id with
    | .error e => .err e
    | .ok (teamString, userString) =>
      let teamR : Outcome Int :=
        match go_parseInt64 teamString with
        | .ok n => .ok n
        | .error _ =>
          let r := org.client.getTeamBySlug org.name teamString
          match r.err with
          | some e => .err e
          | none =>
            match r.team with
            | some t => .ok t.id
            | none => .nilPanic
      match teamR with
      | .err e => .err e
      | .nilPanic => .nilPanic
      | .ok teamID =>
        let userR : Outcome Int :=
          match go_parseInt64 userString with
          | .ok n => .ok n
          | .error _ =>
            let r := org.client.usersGet userString
            match r.err with
            | some e => .err e
            | none =>
              match r.user with
              | some u => .ok u.id
              | none => .nilPanic
        match userR with
        | .err e => .err e
        | .nilPanic => .nilPanic
        | .ok userID =>
          .ok [{ d with id := buildTwoPartID (formatInt teamID) (formatInt userID) }]

/-- The local attribute state of one `github_user` resource: the
identifier plus the two computed attributes.  An attribute that has never
been set holds the empty string (the framework's zero value for
`TypeString`), which is exactly what `d.GetOk` tests. -/
structure UserState where
  id : String
  username : String
  etag : String
deriving DecidableEq, Repr

/-- `resourceGithubUserCreate` (resource_github_user.go:38-40): always
fails, touching neither the remote nor the state. -/
def resourceGithubUserCreate (_org : Organization) (_d : UserState) :
    Outcome UserState :=
  .err (.goError "The github_user resource must be imported, it cannot be created.")

/-- The tail of `resourceGithubUserRead` (resource_github_user.go:70-89):
the error check (a `*github.ErrorResponse` with status 304 returns nil,
404 clears the id and returns nil, anything else is returned), then the
success path dereferencing `*user.ID` and `resp.Header`. -/
def userReadFinish (d : UserState) (user : Option GhUser)
    (resp : Option GhResponse) (err : Option GoError) : Outcome UserState :=
  match err with
  | some e =>
    match e with
    | .ghErrorResponse status msg =>
      if status = 304 then .ok d
      else if status = 404 then .ok { d with id := "" }
      else .err (.ghErrorResponse status msg)
    | e => .err e
  | none =>
    match user, resp with
    | some u, some r =>
      .ok { id := formatInt u.id, etag := r.etag, username := u.login }
    | _, _ => .nilPanic

/-- `resourceGithubUserRead` (resource_github_user.go:42-90).  In the
source's by-id branch, `id, err := strconv.ParseInt(...)` declares an
inner `err` that shadows the function-level one; the subsequent
`user, resp, err = client.Users.GetByID(...)` assigns that inner
variable, so the error check at line 70 reads the outer `err`, which is
still nil.  The embedding therefore passes `none` as the error in that
branch, whatever `GetByID` returned. -/
def resourceGithubUserRead (org : Organization) (d : UserState) :
    Outcome UserState :=
  if d.username = "" then
    let r := org.client.usersGet d.id
    userReadFinish d r.user r.resp r.err
  else
    match go_parseInt64 d.id with
    | .error e => .err (unconvertibleIdErr d.id e)
    | .ok id =>
      let r := org.client.usersGetByID id
      userReadFinish d r.user r.resp none

/-- `resourceGithubUserDelete` (resource_github_user.go:92-95): a silent
no-op. -/
def resourceGithubUserDelete (_org : Organization) (d : UserState) :
    Outcome UserState :=
  .ok d

/-! ### Theorems -/

lemma splitFirstColon_append (a : List Char) (b : List Char)
    (ha : ':' ∉ a) : splitFirstColon (a ++ ':' :: b) = some (a, b) := by
  induction a with
  | nil => simp [splitFirstColon]
  | cons c rest ih =>
    have hc : c ≠ ':' := fun h => ha (h ▸ List.mem_cons_self c rest)
    have hrest : ':' ∉ rest := fun h => ha (List.mem_cons_of_mem c h)
    simp [splitFirstColon, hc, ih hrest]

/-- C3: the Identifier Codec round-trip law: for all strings `a`, `b` not
containing the separator `:`, decoding the encoding of `(a, b)` returns
`(a, b)` with no error, and encoding `("foo", "bar")` yields `"foo:bar"`. -/
theorem twoPartID_roundtrip :
    (∀ a b : String, ':' ∉ a.data → ':' ∉ b.data →
      parseTwoPartID (buildTwoPartID a b) = .ok (a, b)) ∧
    buildTwoPartID "foo" "bar" = "foo:bar" := by
  constructor
  · intro a b ha _
    have hdata : (buildTwoPartID a b).data = a.data ++ ':' :: b.data := by
      simp [buildTwoPartID, String.data_append]
    rw [parseTwoPartID, hdata, splitFirstColon_append a.data b.data ha]
  · rfl

/-- C3 witness: the round-trip at the test's concrete input. -/
theorem twoPartID_roundtrip_witness :
    parseTwoPartID (buildTwoPartID "foo" "bar") = .ok ("foo", "bar") :=
  twoPartID_roundtrip.1 "foo" "bar" (by decide) (by decide)

/-- C9: `getTeamAndUser` fails with the unconvertible-id error wrapping the
parse error when the team string (checked first) or the user string is not
a base-10 int64; fails with the user-resolution error on a directory-cache
miss; and otherwise returns the parsed team id, parsed user id, and the
resolved username. -/
theorem getTeamAndUser_spec (org : Organization) (ts us : String) :
    (∀ e, go_parseInt64 ts = .error e →
      getTeamAndUser ts us org = .error (unconvertibleIdErr ts e)) ∧
    (∀ t e, go_parseInt64 ts = .ok t → go_parseInt64 us = .error e →
      getTeamAndUser ts us org = .error (unconvertibleIdErr us e)) ∧
    (∀ t u, go_parseInt64 ts = .ok t → go_parseInt64 us = .ok u →
      org.getUsername u = none →
      getTeamAndUser ts us org = .error (.goError s!"Unable to get GitHub user {u}")) ∧
    (∀ t u name, go_parseInt64 ts = .ok t → go_parseInt64 us = .ok u →
      org.getUsername u = some name →
      getTeamAndUser ts us org = .ok (t, u, name)) := by
  refine ⟨?_, ?_, ?_, ?_⟩
  · intro e he; simp [getTeamAndUser, he]
  · intro t e ht he; simp [getTeamAndUser, ht, he]
  · intro t u ht hu hc; simp [getTeamAndUser, ht, hu, hc]
  · intro t u name ht hu hc; simp [getTeamAndUser, ht, hu, hc]

/-- The user-directory cache used in the concrete test fixtures. -/
def testCache : Int → Option String :=
  fun n => if n = 583231 then some "octocat" else none

/-- A remote call result for a client that is never reached. -/
def nullUserResult : UserCallResult := ⟨none, none, some (.goError "offline")⟩

/-- A team-membership call result for a client that is never reached. -/
def nullTMResult : TMCallResult := ⟨none, none, some (.goError "offline")⟩

/-- A team-by-slug call result for a client that is never reached. -/
def nullTeamResult : TeamCallResult := ⟨none, none, some (.goError "offline")⟩

/-- An organization whose team-membership lookup returns the given result
and whose other remote calls all fail. -/
def tmOrg (r : TMCallResult) : Organization :=
  { name := "acme"
    client :=
      { usersGet := fun _ => nullUserResult
        usersGetByID := fun _ => nullUserResult
        getTeamMembership := fun _ _ => r
        getTeamBySlug := fun _ _ => nullTeamResult }
    getUsername := testCache
    checkOrgErr := none }

/-- C9 witness: all four resolver outcomes at concrete inputs. -/
theorem getTeamAndUser_spec_witness :
    getTeamAndUser "notAnInt" "583231" (tmOrg nullTMResult) =
      .error (unconvertibleIdErr "notAnInt" ⟨"notAnInt", .invalidSyn⟩) ∧
    getTeamAndUser "1234567" "notAnInt" (tmOrg nullTMResult) =
      .error (unconvertibleIdErr "notAnInt" ⟨"notAnInt", .invalidSyn⟩) ∧
    getTeamAndUser "1234567" "99" (tmOrg nullTMResult) =
      .error (.goError "Unable to get GitHub user 99") ∧
    getTeamAndUser "1234567" "583231" (tmOrg nullTMResult) =
      .ok (1234567, 583231, "octocat") :=
  ⟨(getTeamAndUser_spec (tmOrg nullTMResult) "notAnInt" "583231").1 _ rfl,
   (getTeamAndUser_spec (tmOrg nullTMResult) "1234567" "notAnInt").2.1 1234567 _ rfl rfl,
   (getTeamAndUser_spec (tmOrg nullTMResult) "1234567" "99").2.2.1 1234567 99 rfl rfl rfl,
   (getTeamAndUser_spec (tmOrg nullTMResult) "1234567" "583231").2.2.2 1234567 583231 "octocat" rfl rfl rfl⟩

/-- C2: when the remote get-team-membership response reports not-found,
the Team Membership Read clears the local identifier and returns success,
regardless of the accompanying error value. -/
theorem tmRead_notFound_clears (org : Organization) (d : TMState)
    (ts us : String) (tid uid : Int) (un : String) (resp : GhResponse)
    (hparse : parseTwoPartID d.id = .ok (ts, us))
    (hresolve : getTeamAndUser ts us org = .ok (tid, uid, un))
    (hresp : (org.client.getTeamMembership tid un).resp = some resp)
    (h404 : resp.statusCode = 404) :
    resourceGithubTeamMembershipRead org d = .ok { d with id := "" } := by
  simp [resourceGithubTeamMembershipRead, hparse, hresolve, hresp, h404]

/-- C2 witness: a concrete not-found Read clears the identifier. -/
theorem tmRead_notFound_clears_witness :
    resourceGithubTeamMembershipRead
      (tmOrg ⟨none, some ⟨404, "W2"⟩, some (.ghErrorResponse 404 "Not Found")⟩)
      { id := "1234567:583231", team_id := "1234567", user_id := "583231",
        role := "member", username := "octocat", etag := "W1" } =
    .ok { id := "", team_id := "1234567", user_id := "583231",
          role := "member", username := "octocat", etag := "W1" } :=
  tmRead_notFound_clears _ _ "1234567" "583231" 1234567 583231 "octocat"
    ⟨404, "W2"⟩ rfl rfl rfl rfl

/-- C6: when the remote get-team-membership response reports not-modified,
the Team Membership Read leaves the identifier and every attribute
untouched (the result state is exactly the input state); in every other
successful case it overwrites all computed attributes (etag, team id, user
id, username, role) with the freshly obtained values. -/
theorem tmRead_frame (org : Organization) (d : TMState)
    (ts us : String) (tid uid : Int) (un : String) (resp : GhResponse)
    (hparse : parseTwoPartID d.id = .ok (ts, us))
    (hresolve : getTeamAndUser ts us org = .ok (tid, uid, un))
    (hresp : (org.client.getTeamMembership tid un).resp = some resp) :
    (resp.statusCode = 304 → resourceGithubTeamMembershipRead org d = .ok d) ∧
    (∀ m, resp.statusCode ≠ 404 → resp.statusCode ≠ 304 →
      (org.client.getTeamMembership tid un).err = none →
      (org.client.getTeamMembership tid un).membership = some m →
      resourceGithubTeamMembershipRead org d =
        .ok { d with etag := resp.etag, team_id := formatInt tid,
                     user_id := formatInt uid, username := un,
                     role := m.role }) := by
  constructor
  · intro h304
    simp [resourceGithubTeamMembershipRead, hparse, hresolve, hresp, h304]
  · intro m h404 h304 herr hm
    simp [resourceGithubTeamMembershipRead, hparse, hresolve, hresp,
      h404, h304, herr, hm]

/-- C6 witness: a not-modified Read returns the state unchanged, and a
fresh 200 Read overwrites the computed attributes. -/
theorem tmRead_frame_witness :
    resourceGithubTeamMembershipRead
      (tmOrg ⟨none, some ⟨304, "W2"⟩, some (.ghErrorResponse 304 "Not Modified")⟩)
      { id := "1234567:583231", team_id := "1234567", user_id := "583231",
        role := "member", username := "octocat", etag := "W1" } =
    .ok { id := "1234567:583231", team_id := "1234567", user_id := "583231",
          role := "member", username := "octocat", etag := "W1" } ∧
    resourceGithubTeamMembershipRead
      (tmOrg ⟨some ⟨"maintainer"⟩, some ⟨200, "W2"⟩, none⟩)
      { id := "1234567:583231", team_id := "", user_id := "",
        role := "member", username := "", etag := "W1" } =
    .ok { id := "1234567:583231", team_id := "1234567", user_id := "583231",
          role := "maintainer", username := "octocat", etag := "W2" } :=
  ⟨(tmRead_frame
      (tmOrg ⟨none, some ⟨304, "W2"⟩, some (.ghErrorResponse 304 "Not Modified")⟩)
      { id := "1234567:583231", team_id := "1234567", user_id := "583231",
        role := "member", username := "octocat", etag := "W1" }
      "1234567" "583231" 1234567 583231 "octocat"
      ⟨304, "W2"⟩ rfl rfl rfl).1 rfl,
   (tmRead_frame
      (tmOrg ⟨some ⟨"maintainer"⟩, some ⟨200, "W2"⟩, none⟩)
      { id := "1234567:583231", team_id := "", user_id := "",
        role := "member", username := "", etag := "W1" }
      "1234567" "583231" 1234567 583231 "octocat"
      ⟨200, "W2"⟩ rfl rfl rfl).2 ⟨"maintainer"⟩ (by decide) (by decide) rfl rfl⟩

/-- C10: the Team Membership Read inspects the response status before the
call's error value: with a non-nil error present, a 404 still clears the
identifier and succeeds, a 304 still succeeds leaving state untouched, and
only when the status is neither 404 nor 304 is the error returned. -/
theorem tmRead_status_before_error (org : Organization) (d : TMState)
    (ts us : String) (tid uid : Int) (un : String) (resp : GhResponse)
    (e : GoError)
    (hparse : parseTwoPartID d.id = .ok (ts, us))
    (hresolve : getTeamAndUser ts us org = .ok (tid, uid, un))
    (hresp : (org.client.getTeamMembership tid un).resp = some resp)
    (herr : (org.client.getTeamMembership tid un).err = some e) :
    (resp.statusCode = 404 →
      resourceGithubTeamMembershipRead org d = .ok { d with id := "" }) ∧
    (resp.statusCode = 304 →
      resourceGithubTeamMembershipRead org d = .ok d) ∧
    (resp.statusCode ≠ 404 → resp.statusCode ≠ 304 →
      resourceGithubTeamMembershipRead org d = .err e) := by
  refine ⟨?_, ?_, ?_⟩
  · intro h404
    simp [resourceGithubTeamMembershipRead, hparse, hresolve, hresp, h404]
  · intro h304
    simp [resourceGithubTeamMembershipRead, hparse, hresolve, hresp, h304]
  · intro h404 h304
    simp [resourceGithubTeamMembershipRead, hparse, hresolve, hresp,
      h404, h304, herr]

/-- C10 witness: with a non-nil error alongside each status, 404 clears
the identifier, 304 is a no-op, and 500 surfaces the error. -/
theorem tmRead_status_before_error_witness :
    resourceGithubTeamMembershipRead
      (tmOrg ⟨none, some ⟨404, "W2"⟩, some (.goError "boom404")⟩)
      { id := "1234567:583231", team_id := "1234567", user_id := "583231",
        role := "member", username := "octocat", etag := "W1" } =
    .ok { id := "", team_id := "1234567", user_id := "583231",
          role := "member", username := "octocat", etag := "W1" } ∧
    resourceGithubTeamMembershipRead
      (tmOrg ⟨none, some ⟨304, "W2"⟩, some (.goError "boom304")⟩)
      { id := "1234567:583231", team_id := "1234567", user_id := "583231",
        role := "member", username := "octocat", etag := "W1" } =
    .ok { id := "1234567:583231", team_id := "1234567", user_id := "583231",
          role := "member", username := "octocat", etag := "W1" } ∧
    resourceGithubTeamMembershipRead
      (tmOrg ⟨none, some ⟨500, "W2"⟩, some (.goError "boom500")⟩)
      { id := "1234567:583231", team_id := "1234567", user_id := "583231",
        role := "member", username := "octocat", etag := "W1" } =
    .err (.goError "boom500") :=
  ⟨(tmRead_status_before_error
      (tmOrg ⟨none, some ⟨404, "W2"⟩, some (.goError "boom404")⟩)
      { id := "1234567:583231", team_id := "1234567", user_id := "583231",
        role := "member", username := "octocat", etag := "W1" }
      "1234567" "583231" 1234567 583231
      "octocat" ⟨404, "W2"⟩ (.goError "boom404") rfl rfl rfl rfl).1 rfl,
   (tmRead_status_before_error
      (tmOrg ⟨none, some ⟨304, "W2"⟩, some (.goError "boom304")⟩)
      { id := "1234567:583231", team_id := "1234567", user_id := "583231",
        role := "member", username := "octocat", etag := "W1" }
      "1234567" "583231" 1234567 583231
      "octocat" ⟨304, "W2"⟩ (.goError "boom304") rfl rfl rfl rfl).2.1 rfl,
   (tmRead_status_before_error
      (tmOrg ⟨none, some ⟨500, "W2"⟩, some (.goError "boom500")⟩)
      { id := "1234567:583231", team_id := "1234567", user_id := "583231",
        role := "member", username := "octocat", etag := "W1" }
      "1234567" "583231" 1234567 583231
      "octocat" ⟨500, "W2"⟩ (.goError "boom500") rfl rfl rfl rfl).2.2
      (by decide) (by decide)⟩

/-- C4: Team Membership Import resolves each composite-id part by integer
parse first — when both parts parse, the result is independent of the
remote client — falling back to a remote slug (team) / login (user) lookup
only on parse failure; it emits exactly one resulting state whose
identifier is the canonical numeric-only composite, and it fails with the
lookup's error when either remote lookup fails. -/
theorem tmImport_spec (org : Organization) (d : TMState) (ts us : String)
    (horg : org.checkOrgErr = none)
    (hparse : parseTwoPartID d.id = .ok (ts, us)) :
    (∀ t u : Int, go_parseInt64 ts = .ok t → go_parseInt64 us = .ok u →
      resourceGithubTeamMembershipImport org d =
        .ok [{ d with id := buildTwoPartID (formatInt t) (formatInt u) }]) ∧
    (∀ e₁ e, go_parseInt64 ts = .error e₁ →
      (org.client.getTeamBySlug org.name ts).err = some e →
      resourceGithubTeamMembershipImport org d = .err e) ∧
    (∀ t : Int, ∀ e₂ e, go_parseInt64 ts = .ok t → go_parseInt64 us = .error e₂ →
      (org.client.usersGet us).err = some e →
      resourceGithubTeamMembershipImport org d = .err e) ∧
    (∀ e₁ team rsp e₂ u rsp₂, go_parseInt64 ts = .error e₁ →
      org.client.getTeamBySlug org.name ts = ⟨some team, rsp, none⟩ →
      go_parseInt64 us = .error e₂ →
      org.client.usersGet us = ⟨some u, rsp₂, none⟩ →
      resourceGithubTeamMembershipImport org d =
        .ok [{ d with id := buildTwoPartID (formatInt team.id) (formatInt u.id) }]) := by
  refine ⟨?_, ?_, ?_, ?_⟩
  · intro t u ht hu
    simp [resourceGithubTeamMembershipImport, horg, hparse, ht, hu]
  · intro e₁ e ht hslug
    simp [resourceGithubTeamMembershipImport, horg, hparse, ht, hslug]
  · intro t e₂ e ht hu hlogin
    simp [resourceGithubTeamMembershipImport, horg, hparse, ht, hu, hlogin]
  · intro e₁ team rsp e₂ u rsp₂ ht hslug hu hlogin
    simp [resourceGithubTeamMembershipImport, horg, hparse, ht, hslug, hu, hlogin]

/-- An organization whose slug lookup knows `my-team` and whose login
lookup knows `octocat`, used for the Import witness. -/
def importOrg : Organization :=
  { name := "acme"
    client :=
      { usersGet := fun login =>
          if login = "octocat" then ⟨some ⟨583231, "octocat"⟩, some ⟨200, "W3"⟩, none⟩
          else ⟨none, none, some (.ghErrorResponse 404 "Not Found")⟩
        usersGetByID := fun _ => nullUserResult
        getTeamMembership := fun _ _ => nullTMResult
        getTeamBySlug := fun _ slug =>
          if slug = "my-team" then ⟨some ⟨1234567⟩, some ⟨200, "W4"⟩, none⟩
          else ⟨none, none, some (.ghErrorResponse 404 "Not Found")⟩ }
    getUsername := testCache
    checkOrgErr := none }

/-- C4 witness: a numeric-only import needs no remote lookups, and the
slug/login import `my-team:octocat` resolves to `1234567:583231`. -/
theorem tmImport_spec_witness :
    resourceGithubTeamMembershipImport importOrg
      { id := "3:7", team_id := "", user_id := "",
        role := "", username := "", etag := "" } =
    .ok [{ id := "3:7", team_id := "", user_id := "",
           role := "", username := "", etag := "" }] ∧
    resourceGithubTeamMembershipImport importOrg
      { id := "my-team:octocat", team_id := "", user_id := "",
        role := "", username := "", etag := "" } =
    .ok [{ id := "1234567:583231", team_id := "", user_id := "",
           role := "", username := "", etag := "" }] :=
  ⟨(tmImport_spec importOrg
      { id := "3:7", team_id := "", user_id := "",
        role := "", username := "", etag := "" }
      "3" "7" rfl rfl).1 3 7 rfl rfl,
   (tmImport_spec importOrg
      { id := "my-team:octocat", team_id := "", user_id := "",
        role := "", username := "", etag := "" }
      "my-team" "octocat" rfl rfl).2.2.2
      ⟨"my-team", .invalidSyn⟩ ⟨1234567⟩ (some ⟨200, "W4"⟩)
      ⟨"octocat", .invalidSyn⟩ ⟨583231, "octocat"⟩ (some ⟨200, "W3"⟩)
      rfl rfl rfl rfl⟩

/-- C5: User Read fetches by login when the `username` attribute has never
been set and by numeric id otherwise — failing with the unconvertible-id
error when the stored identifier does not parse — and, on a successful
fetch, sets the identifier to the canonical decimal string of the user's
numeric id and stores the response's etag and login. -/
theorem userRead_spec (org : Organization) (d : UserState) :
    (d.username = "" → ∀ u r, org.client.usersGet d.id = ⟨some u, some r, none⟩ →
      resourceGithubUserRead org d =
        .ok { id := formatInt u.id, username := u.login, etag := r.etag }) ∧
    (d.username ≠ "" → ∀ e, go_parseInt64 d.id = .error e →
      resourceGithubUserRead org d = .err (unconvertibleIdErr d.id e)) ∧
    (d.username ≠ "" → ∀ n : Int, go_parseInt64 d.id = .ok n →
      ∀ u r, org.client.usersGetByID n = ⟨some u, some r, none⟩ →
      resourceGithubUserRead org d =
        .ok { id := formatInt u.id, username := u.login, etag := r.etag }) := by
  refine ⟨?_, ?_, ?_⟩
  · intro hset u r hcall
    simp [resourceGithubUserRead, hset, hcall, userReadFinish]
  · intro hset e hpe
    simp [resourceGithubUserRead, hset, hpe]
  · intro hset n hpn u r hcall
    simp [resourceGithubUserRead, hset, hpn, hcall, userReadFinish]

/-- An organization whose user lookups (by login and by id) know only
`octocat` with id 583231. -/
def userOrg : Organization :=
  { name := "acme"
    client :=
      { usersGet := fun login =>
          if login = "octocat" then ⟨some ⟨583231, "octocat"⟩, some ⟨200, "W5"⟩, none⟩
          else ⟨none, none, some (.ghErrorResponse 404 "Not Found")⟩
        usersGetByID := fun n =>
          if n = 583231 then ⟨some ⟨583231, "octocat"⟩, some ⟨200, "W6"⟩, none⟩
          else ⟨none, none, some (.ghErrorResponse 404 "Not Found")⟩
        getTeamMembership := fun _ _ => nullTMResult
        getTeamBySlug := fun _ _ => nullTeamResult }
    getUsername := testCache
    checkOrgErr := none }

/-- C5 witness: a first read (login `octocat`) canonicalises the id, a
later read with a non-numeric stored id fails with the unconvertible-id
error, and a later numeric read fetches by id. -/
theorem userRead_spec_witness :
    resourceGithubUserRead userOrg { id := "octocat", username := "", etag := "" } =
      .ok { id := "583231", username := "octocat", etag := "W5" } ∧
    resourceGithubUserRead userOrg { id := "octo!", username := "octocat", etag := "W5" } =
      .err (unconvertibleIdErr "octo!" ⟨"octo!", .invalidSyn⟩) ∧
    resourceGithubUserRead userOrg { id := "583231", username := "octocat", etag := "W5" } =
      .ok { id := "583231", username := "octocat", etag := "W6" } :=
  ⟨(userRead_spec userOrg { id := "octocat", username := "", etag := "" }).1
      rfl ⟨583231, "octocat"⟩ ⟨200, "W5"⟩ rfl,
   (userRead_spec userOrg { id := "octo!", username := "octocat", etag := "W5" }).2.1
      (by decide) ⟨"octo!", .invalidSyn⟩ rfl,
   (userRead_spec userOrg { id := "583231", username := "octocat", etag := "W5" }).2.2
      (by decide) 583231 rfl ⟨583231, "octocat"⟩ ⟨200, "W6"⟩ rfl⟩

/-- C7: User Create fails for every organization handle and every input
state with the must-be-imported error; it consults neither the remote
client nor the state. -/
theorem userCreate_always_fails (org : Organization) (d : UserState) :
    resourceGithubUserCreate org d =
      .err (.goError "The github_user resource must be imported, it cannot be created.") :=
  rfl

/-- C8: User Delete succeeds for every organization handle and every input
state, returning the state unchanged and issuing no remote call. -/
theorem userDelete_noop (org : Organization) (d : UserState) :
    resourceGithubUserDelete org d = .ok d :=
  rfl

/-- An organization whose fetch-by-id call always fails with an HTTP 500
error response while fetch-by-login succeeds, exhibiting the shadowed
error variable in the User Read by-id branch. -/
def userBugOrg : Organization :=
  { name := "acme"
    client :=
      { usersGet := fun _ => ⟨some ⟨583231, "octocat"⟩, some ⟨200, "W5"⟩, none⟩
        usersGetByID := fun _ =>
          ⟨none, none, some (.ghErrorResponse 500 "Internal Server Error")⟩
        getTeamMembership := fun _ _ => nullTMResult
        getTeamBySlug := fun _ _ => nullTeamResult }
    getUsername := testCache
    checkOrgErr := none }

/-- C1: counter-evidence on the fetch-by-id branch.  With `username`
already set and `GetByID` returning a non-nil error, the source assigns
that error to a shadowed inner variable, so the outer error check sees
nil and the success path dereferences the nil `user` pointer: the
operation panics instead of propagating the error (and the 404/304
handling of that branch is equally unreachable). -/
theorem userRead_byId_error_dropped :
    resourceGithubUserRead userBugOrg { id := "583231", username := "octocat", etag := "W5" } =
      .nilPanic ∧
    resourceGithubUserRead userBugOrg { id := "583231", username := "octocat", etag := "W5" } ≠
      .err (.ghErrorResponse 500 "Internal Server Error") := by
  exact ⟨rfl, by decide⟩

end GithubProvider
